import Mathlib

/-!
Verification development for the nanobot task-orchestration core.

The definitions below are a shallow embedding of the Python sources under
`src/nanobot/`: tool schema validation (`agent/tools/base.py`), the tool
registry (`agent/tools/registry.py`), the subagent manager
(`agent/subagent.py`), cron types (`cron/types.py`), the heartbeat gate
(`heartbeat/service.py`), the LiteLLM provider error path
(`providers/litellm_provider.py`), bus events (`bus/events.py`) and session
key parsing (`utils/helpers.py`).  Python `dict`s are embedded as ordered
association lists, machine strings as `String`, numbers as `Int`/`Rat`, and
fallible code as `Except`.
-/

set_option maxHeartbeats 1000000

namespace Nanobot

/-- Embedding of the Python runtime values that tool arguments range over:
strings, ints, floats (as rationals), booleans, lists, dicts and `None`.
Dicts are ordered association lists (Python dicts preserve insertion order
and have unique keys). -/
inductive PyVal where
  | vStr (s : String)
  | vInt (n : Int)
  | vFloat (q : Rat)
  | vBool (b : Bool)
  | vArr (xs : List PyVal)
  | vObj (kvs : List (String × PyVal))
  | vNone
deriving Repr

/-- Numeric view of a Python value, for `<`/`>` comparisons in validation.
Python treats `bool` as a subtype of `int` (`True == 1`).  Only reached on
values that passed an `integer`/`number` isinstance check, so the default 0
for non-numeric constructors is never used on the paths we prove about. -/
def pyNum : PyVal → Rat
  | .vInt n => (n : Rat)
  | .vFloat q => q
  | .vBool b => if b then 1 else 0
  | _ => 0

mutual

/-- Python `==` on embedded values: numeric types compare by value across
`int`/`float`/`bool` (as in Python); lists compare elementwise.  Dicts are
compared pairwise in insertion order; Python dict equality is
order-insensitive, but every `enum` in this codebase holds scalars, where
the two notions coincide. -/
def pyEq : PyVal → PyVal → Bool
  | .vStr a, .vStr b => a == b
  | .vInt a, .vInt b => a == b
  | .vInt a, .vFloat b => ((a : Rat) == b)
  | .vInt a, .vBool b => a == (if b then 1 else 0)
  | .vFloat a, .vInt b => (a == (b : Rat))
  | .vFloat a, .vFloat b => a == b
  | .vFloat a, .vBool b => (a == (if b then (1 : Rat) else 0))
  | .vBool a, .vBool b => a == b
  | .vBool a, .vInt b => (if a then (1 : Int) else 0) == b
  | .vBool a, .vFloat b => ((if a then (1 : Rat) else 0) == b)
  | .vArr xs, .vArr ys => pyEqList xs ys
  | .vObj xs, .vObj ys => pyEqPairs xs ys
  | .vNone, .vNone => true
  | _, _ => false

def pyEqList : List PyVal → List PyVal → Bool
  | [], [] => true
  | x :: xs, y :: ys => pyEq x y && pyEqList xs ys
  | _, _ => false

def pyEqPairs : List (String × PyVal) → List (String × PyVal) → Bool
  | [], [] => true
  | (k, v) :: xs, (k2, v2) :: ys => k == k2 && pyEq v v2 && pyEqPairs xs ys
  | _, _ => false

end

mutual

/-- Python `repr` of an embedded value, as interpolated into f-string error
messages (floats are displayed as rationals, a display-only deviation). -/
def pyRepr : PyVal → String
  | .vStr s => "\x27" ++ s ++ "\x27"
  | .vInt n => toString n
  | .vFloat q => toString q
  | .vBool b => if b then "True" else "False"
  | .vArr xs => "[" ++ pyReprList xs ++ "]"
  | .vObj kvs => "\x7b" ++ pyReprPairs kvs ++ "\x7d"
  | .vNone => "None"

def pyReprList : List PyVal → String
  | [] => ""
  | [x] => pyRepr x
  | x :: xs => pyRepr x ++ ", " ++ pyReprList xs

def pyReprPairs : List (String × PyVal) → String
  | [] => ""
  | [(k, v)] => "\x27" ++ k ++ "\x27: " ++ pyRepr v
  | (k, v) :: xs => "\x27" ++ k ++ "\x27: " ++ pyRepr v ++ ", " ++ pyReprPairs xs

end

/-- The JSON-Schema fragment read by `Tool._validate` in
`agent/tools/base.py`: exactly the keys the code looks up (`type`, `enum`,
`minimum`, `maximum`, `minLength`, `maxLength`, `properties`, `required`,
`items`).  Absent keys are `none` / `[]`. -/
inductive JSchema where
  | mk (type? : Option String) (enum? : Option (List PyVal))
      (minimum? maximum? : Option Int) (minLength? maxLength? : Option Nat)
      (properties : List (String × JSchema)) (required : List String)
      (items? : Option JSchema)

def JSchema.type? : JSchema → Option String
  | .mk t _ _ _ _ _ _ _ _ => t

def JSchema.enum? : JSchema → Option (List PyVal)
  | .mk _ e _ _ _ _ _ _ _ => e

def JSchema.minimum? : JSchema → Option Int
  | .mk _ _ mn _ _ _ _ _ _ => mn

def JSchema.maximum? : JSchema → Option Int
  | .mk _ _ _ mx _ _ _ _ _ => mx

def JSchema.minLength? : JSchema → Option Nat
  | .mk _ _ _ _ ml _ _ _ _ => ml

def JSchema.maxLength? : JSchema → Option Nat
  | .mk _ _ _ _ _ ml _ _ _ => ml

def JSchema.properties : JSchema → List (String × JSchema)
  | .mk _ _ _ _ _ _ ps _ _ => ps

def JSchema.required : JSchema → List String
  | .mk _ _ _ _ _ _ _ rs _ => rs

def JSchema.items? : JSchema → Option JSchema
  | .mk _ _ _ _ _ _ _ _ it => it

/-- A schema dict with none of the validated keys present (Python `{}`). -/
def JSchema.empty : JSchema := .mk none none none none none none [] [] none

/-- Replace the `type` key (the `{**schema, "type": "object"}` update in
`Tool.validate_params`). -/
def JSchema.withType (s : JSchema) (t : String) : JSchema :=
  match s with
  | .mk _ e mn mx ml mxl ps rs it => .mk (some t) e mn mx ml mxl ps rs it

/-- The keys of `Tool._TYPE_MAP` in `agent/tools/base.py`. -/
def TYPE_MAP_KEYS : List String :=
  ["string", "integer", "number", "boolean", "array", "object"]

/-- Python `isinstance(val, _TYPE_MAP[t])`.  As in Python, `bool` is a
subclass of `int`, so booleans satisfy the `integer` and `number` checks. -/
def isinstanceOf (val : PyVal) (t : String) : Bool :=
  match t with
  | "string" => match val with | .vStr _ => true | _ => false
  | "integer" => match val with | .vInt _ => true | .vBool _ => true | _ => false
  | "number" =>
      match val with
      | .vInt _ => true | .vFloat _ => true | .vBool _ => true | _ => false
  | "boolean" => match val with | .vBool _ => true | _ => false
  | "array" => match val with | .vArr _ => true | _ => false
  | "object" => match val with | .vObj _ => true | _ => false
  | _ => false

/-- The early-return condition of `Tool._validate`:
`t in self._TYPE_MAP and not isinstance(val, self._TYPE_MAP[t])`. -/
def typeMismatch (val : PyVal) (schema : JSchema) : Bool :=
  match schema.type? with
  | some t => TYPE_MAP_KEYS.contains t && !(isinstanceOf val t)
  | none => false

/-- `label = path or "parameter"` in `Tool._validate`. -/
def pathLabel (path : String) : String :=
  if path = "" then "parameter" else path

/-- `path + '.' + k if path else k` in `Tool._validate`. -/
def childKey (path k : String) : String :=
  if path = "" then k else path ++ "." ++ k

/-- `f"{path}[{i}]" if path else f"[{i}]"` in `Tool._validate`. -/
def itemPath (path : String) (i : Nat) : String :=
  if path = "" then "[" ++ toString i ++ "]"
  else path ++ "[" ++ toString i ++ "]"

/-- The type-mismatch message `f"{label} 应该是 {t} 类型"`. -/
def typeMsg (lbl t : String) : String := lbl ++ " 应该是 " ++ t ++ " 类型"

/-- The enum message `f"{label} 必须是 {schema['enum']} 之一"`. -/
def enumMsg (lbl : String) (es : List PyVal) : String :=
  lbl ++ " 必须是 [" ++ pyReprList es ++ "] 之一"

/-- The minimum message `f"{label} 必须 >= {schema['minimum']}"`. -/
def minMsg (lbl : String) (m : Int) : String := lbl ++ " 必须 >= " ++ toString m

/-- The maximum message `f"{label} 必须 <= {schema['maximum']}"`. -/
def maxMsg (lbl : String) (m : Int) : String := lbl ++ " 必须 <= " ++ toString m

/-- The minLength message `f"{label} 至少 {schema['minLength']} 个字符"`. -/
def minLenMsg (lbl : String) (n : Nat) : String :=
  lbl ++ " 至少 " ++ toString n ++ " 个字符"

/-- The maxLength message `f"{label} 最多 {schema['maxLength']} 个字符"`. -/
def maxLenMsg (lbl : String) (n : Nat) : String :=
  lbl ++ " 最多 " ++ toString n ++ " 个字符"

/-- The missing-required message `f"缺少必需的 {...}"`. -/
def requiredMsg (path k : String) : String := "缺少必需的 " ++ childKey path k

/-- The `"enum" in schema and val not in schema["enum"]` block. -/
def enumErrs (val : PyVal) (schema : JSchema) (lbl : String) : List String :=
  match schema.enum? with
  | some es => if es.any (fun e => pyEq val e) then [] else [enumMsg lbl es]
  | none => []

/-- The numeric `minimum`/`maximum` block, guarded by
`t in ("integer", "number")`. -/
def numErrs (val : PyVal) (schema : JSchema) (lbl : String) : List String :=
  if schema.type? == some "integer" || schema.type? == some "number" then
    (match schema.minimum? with
     | some m => if pyNum val < (m : Rat) then [minMsg lbl m] else []
     | none => []) ++
    (match schema.maximum? with
     | some m => if (m : Rat) < pyNum val then [maxMsg lbl m] else []
     | none => [])
  else []

/-- `len(val)` on a value that passed the `string` isinstance check. -/
def pyStrLen : PyVal → Nat
  | .vStr s => s.length
  | _ => 0

/-- The string `minLength`/`maxLength` block, guarded by `t == "string"`. -/
def strErrs (val : PyVal) (schema : JSchema) (lbl : String) : List String :=
  if schema.type? == some "string" then
    (match schema.minLength? with
     | some n => if pyStrLen val < n then [minLenMsg lbl n] else []
     | none => []) ++
    (match schema.maxLength? with
     | some n => if n < pyStrLen val then [maxLenMsg lbl n] else []
     | none => [])
  else []

/-- Dict key lookup on the embedded value (`k in val` / `val[k]`). -/
def lookupVal (k : String) : List (String × PyVal) → Option PyVal
  | [] => none
  | (k2, v) :: rest => if k2 == k then some v else lookupVal k rest

/-- Dict key lookup in a `properties` map (`k in props` / `props[k]`). -/
def lookupJS (k : String) : List (String × JSchema) → Option JSchema
  | [] => none
  | (k2, s) :: rest => if k2 == k then some s else lookupJS k rest

/-- The items of a value that passed the `object` isinstance check. -/
def objItems : PyVal → List (String × PyVal)
  | .vObj kvs => kvs
  | _ => []

/-- The `for k in schema.get("required", [])` loop of `Tool._validate`. -/
def requiredErrs (val : PyVal) (schema : JSchema) (path : String) : List String :=
  schema.required.filterMap fun k =>
    if (lookupVal k (objItems val)).isSome then none else some (requiredMsg path k)

mutual

/-- `Tool._validate` from `agent/tools/base.py`: returns the (ordered) list
of violation messages for `val` against `schema` at `path`.  A failed type
check returns just the type error; otherwise the enum, numeric-bounds,
string-length, object (required + recursive properties) and array
(recursive items) blocks accumulate their errors in source order. -/
def validateVal (val : PyVal) (schema : JSchema) (path : String) : List String :=
  if typeMismatch val schema then
    [typeMsg (pathLabel path) (schema.type?.getD "")]
  else
    enumErrs val schema (pathLabel path) ++
    numErrs val schema (pathLabel path) ++
    strErrs val schema (pathLabel path) ++
    (if schema.type? == some "object" then
      requiredErrs val schema path ++
      (match val with
       | .vObj kvs => validateProps kvs schema.properties path
       | _ => [])
    else []) ++
    (if schema.type? == some "array" then
      match schema.items?, val with
      | some isch, .vArr xs => validateItems xs isch path 0
      | _, _ => []
    else [])

/-- The `for k, v in val.items(): if k in props: ...` loop of
`Tool._validate`, iterating the argument dict in insertion order. -/
def validateProps (kvs : List (String × PyVal)) (props : List (String × JSchema))
    (path : String) : List String :=
  match kvs with
  | [] => []
  | (k, v) :: rest =>
    (match lookupJS k props with
     | some sub => validateVal v sub (childKey path k)
     | none => []) ++ validateProps rest props path

/-- The `for i, item in enumerate(val)` loop of `Tool._validate`. -/
def validateItems (xs : List PyVal) (isch : JSchema) (path : String) (i : Nat) :
    List String :=
  match xs with
  | [] => []
  | x :: rest => validateVal x isch (itemPath path i) ++ validateItems rest isch path (i + 1)

end

/-- Python `repr` of `schema.get("type")` in the `validate_params` error. -/
def optStrRepr : Option String → String
  | none => "None"
  | some s => "\x27" ++ s ++ "\x27"

/-- A capability (`Tool` in `agent/tools/base.py`): name, description, a
JSON-Schema parameter definition, and an execute operation over a keyword
argument mapping.  `execute` returns `Except`: `.error msg` embeds a raised
Python exception whose `str` is `msg`. -/
inductive Tool where
  | mk (name : String) (description : String) (parameters : JSchema)
      (execute : List (String × PyVal) → Except String String)

def Tool.name : Tool → String
  | .mk n _ _ _ => n

def Tool.description : Tool → String
  | .mk _ d _ _ => d

def Tool.parameters : Tool → JSchema
  | .mk _ _ p _ => p

def Tool.execute : Tool → List (String × PyVal) → Except String String
  | .mk _ _ _ e => e

/-- `Tool.validate_params` from `agent/tools/base.py`: raises `ValueError`
(embedded as `.error`) when the schema's top-level `type` is not `object`
(defaulting to `object` when absent), else runs `_validate` on the argument
dict against the schema with `type` forced to `object`. -/
def Tool.validate_params (t : Tool) (params : List (String × PyVal)) :
    Except String (List String) :=
  let schema := t.parameters
  if (schema.type?.getD "object") ≠ "object" then
    .error ("Schema 必须是 object 类型，当前为 " ++ optStrRepr schema.type?)
  else
    .ok (validateVal (.vObj params) (schema.withType "object") "")

/-- `ToolRegistry` from `agent/tools/registry.py`: an insertion-ordered
name → tool dict. -/
inductive ToolRegistry where
  | mk (tools : List (String × Tool))

def ToolRegistry.tools : ToolRegistry → List (String × Tool)
  | .mk ts => ts

/-- `ToolRegistry.register`: Python dict assignment — replaces the entry in
place if the name is present, else appends. -/
def ToolRegistry.register (r : ToolRegistry) (t : Tool) : ToolRegistry :=
  if r.tools.any (fun kv => kv.1 == t.name) then
    .mk (r.tools.map fun kv => if kv.1 == t.name then (kv.1, t) else kv)
  else
    .mk (r.tools ++ [(t.name, t)])

/-- `ToolRegistry.get`: dict lookup. -/
def ToolRegistry.get (r : ToolRegistry) (name : String) : Option Tool :=
  (r.tools.find? (fun kv => kv.1 == name)).map (fun kv => kv.2)

/-- `ToolRegistry.tool_names`. -/
def ToolRegistry.tool_names (r : ToolRegistry) : List String :=
  r.tools.map (fun kv => kv.1)

/-- `ToolRegistry.execute` from `agent/tools/registry.py`.  The first
component is the returned text; the second is ghost instrumentation counting
how many times the underlying tool's `execute` ran (the source calls it at
exactly one site, inside the `try` block after validation passes). -/
def ToolRegistry.execute (r : ToolRegistry) (name : String)
    (params : List (String × PyVal)) : String × Nat :=
  match r.get name with
  | none => ("错误：未找到工具 \x27" ++ name ++ "\x27", 0)
  | some tool =>
    match tool.validate_params params with
    | .error e => ("执行 " ++ name ++ " 时出错：" ++ e, 0)
    | .ok errors =>
      if errors.isEmpty then
        match tool.execute params with
        | .ok res => (res, 1)
        | .error e => ("执行 " ++ name ++ " 时出错：" ++ e, 1)
      else
        ("错误：工具 \x27" ++ name ++ "\x27 的参数无效：" ++
          String.intercalate "；" errors, 0)

/-- A tool-call request carried by a completion response (the provider
contract of spec §6; `providers/base.py` is not under src/, so the field set
follows its uses in `agent/subagent.py` and `providers/litellm_provider.py`).
Arguments arrive as a parsed mapping. -/
structure ToolCallRequest where
  id : String
  name : String
  arguments : List (String × PyVal)

/-- A completion-backend response (`{content, tool_calls[], finish_reason,
usage}` per spec §6, matching the constructions in
`providers/litellm_provider.py`). -/
structure LLMResponse where
  content : Option String := none
  tool_calls : List ToolCallRequest := []
  finish_reason : String := "stop"
  usage : List (String × Int) := []

/-- `response.has_tool_calls` as used by `agent/subagent.py`. -/
def LLMResponse.has_tool_calls (r : LLMResponse) : Bool :=
  !r.tool_calls.isEmpty

/-- A transcript message (`dict` entries appended to `messages` by
`SubagentManager._run_subagent`; the JSON serialization of tool-call
arguments inside the assistant entry is kept structural). -/
inductive ChatMessage where
  | system (content : String)
  | user (content : String)
  | assistant (content : String) (tool_calls : List ToolCallRequest)
  | tool (tool_call_id : String) (name : String) (content : String)

/-- `InboundMessage` from `bus/events.py` (the timestamp is abstracted to a
number; `datetime.now()` defaults to 0 here). -/
structure InboundMessage where
  channel : String
  sender_id : String
  chat_id : String
  content : String
  timestamp : Nat := 0
  media : List String := []
  metadata : List (String × String) := []

/-- `InboundMessage.session_key` from `bus/events.py`. -/
def InboundMessage.session_key (m : InboundMessage) : String :=
  m.channel ++ ":" ++ m.chat_id

/-- The `origin` dict built in `SubagentManager.spawn`. -/
structure Origin where
  channel : String
  chat_id : String

/-- A completion backend for the subagent loop: each call either returns a
response or raises (`.error msg`). -/
def ChatFun : Type := List ChatMessage → Except String LLMResponse

/-- The `while iteration < max_iterations` loop of
`SubagentManager._run_subagent`.  Returns the loop's `final_result`
(`none` when no tool-call-free response arrived before the ceiling, or when
the final response had `None` content) together with the final value of the
`iteration` counter; a raised exception propagates as `.error`. -/
def subagentLoop (chat : ChatFun) (tools : ToolRegistry)
    (messages : List ChatMessage) (iteration maxIterations : Nat) :
    Except String (Option String × Nat) :=
  if iteration < maxIterations then
    let iter2 := iteration + 1
    match chat messages with
    | .error e => .error e
    | .ok response =>
      if response.has_tool_calls then
        let assistantMsg := ChatMessage.assistant (response.content.getD "") response.tool_calls
        let toolMsgs := response.tool_calls.map fun tc =>
          ChatMessage.tool tc.id tc.name (tools.execute tc.name tc.arguments).1
        subagentLoop chat tools (messages ++ assistantMsg :: toolMsgs) iter2 maxIterations
      else
        .ok (response.content, iter2)
  else
    .ok (none, iteration)
termination_by maxIterations - iteration

/-- The canned result used when the iteration ceiling is reached without a
final response ("任务已完成，但未生成最终响应。"). -/
def cannedNoFinal : String := "任务已完成，但未生成最终响应。"

/-- `SubagentManager._announce_result`: builds the synthetic inbound event
published on the bus — `system` channel, `subagent` sender, chat id
`origin_channel:origin_chat_id`, and the fixed announcement template. -/
def SubagentManager.announceResult (label task result : String) (origin : Origin)
    (status : String) : InboundMessage :=
  let status_text := if status == "ok" then "成功完成" else "失败"
  { channel := "system"
    sender_id := "subagent"
    chat_id := origin.channel ++ ":" ++ origin.chat_id
    content :=
      "[子代理 \x27" ++ label ++ "\x27 " ++ status_text ++ "]\n\n任务：" ++ task ++
      "\n\n结果：\n" ++ result ++
      "\n\n自然地为用户总结。保持简短（1-2 句话）。不要提及技术细节如\"子代理\"或任务 ID。" }

/-- `SubagentManager._build_subagent_prompt`. -/
def SubagentManager.buildSubagentPrompt (workspace task : String) : String :=
  "# 子代理\n\n你是由主代理生成来完成特定任务的子代理。\n\n## 你的任务\n" ++ task ++
  "\n\n## 规则\n1. 保持专注 - 只完成分配的任务，不做其他事情\n" ++
  "2. 你的最终响应将报告回主代理\n3. 不要发起对话或承担旁支任务\n" ++
  "4. 在你的发现中要简洁但信息丰富\n\n## 你能做什么\n- 在工作区中读写文件\n" ++
  "- 执行 shell 命令\n- 搜索网页并获取网页内容\n- 彻底完成任务\n\n" ++
  "## 你不能做什么\n- 直接向用户发送消息（无消息工具可用）\n- 生成其他子代理\n" ++
  "- 访问主代理的对话历史\n\n## 工作区\n你的工作区位于：" ++ workspace ++
  "\n\n当你完成任务时，提供你的发现或行动的清晰总结。"

/-- Modelled from the spec: the file-read capability registered for
subagents (`agent/tools/filesystem.py` is not under src/); only its name
matters to the claims proved here. -/
def readFileTool : Tool := .mk "read_file" "read a file" JSchema.empty (fun _ => .ok "")

/-- Modelled from the spec: the file-write capability registered for
subagents (`agent/tools/filesystem.py` is not under src/). -/
def writeFileTool : Tool := .mk "write_file" "write a file" JSchema.empty (fun _ => .ok "")

/-- Modelled from the spec: the directory-list capability registered for
subagents (`agent/tools/filesystem.py` is not under src/). -/
def listDirTool : Tool := .mk "list_dir" "list a directory" JSchema.empty (fun _ => .ok "")

/-- Modelled from the spec: the shell-execution capability registered for
subagents (`agent/tools/shell.py` is not under src/). -/
def execTool : Tool := .mk "exec" "run a shell command" JSchema.empty (fun _ => .ok "")

/-- Modelled from the spec: the web-search capability registered for
subagents (`agent/tools/web.py` is not under src/). -/
def webSearchTool : Tool := .mk "web_search" "search the web" JSchema.empty (fun _ => .ok "")

/-- Modelled from the spec: the web-fetch capability registered for
subagents (`agent/tools/web.py` is not under src/). -/
def webFetchTool : Tool := .mk "web_fetch" "fetch a web page" JSchema.empty (fun _ => .ok "")

/-- `SpawnTool` from `agent/tools/spawn.py`: name, description and parameter
schema are from the source; its execute delegates to `SubagentManager.spawn`
and is embedded as returning the started-status text. -/
def spawnTool : Tool :=
  .mk "spawn"
    "生成一个子代理在后台处理任务。用于可以独立运行的复杂或耗时任务。子代理将完成任务并在完成后报告。"
    (.mk (some "object") none none none none none
      [("task", .mk (some "string") none none none none none [] [] none),
       ("label", .mk (some "string") none none none none none [] [] none)]
      ["task"] none)
    (fun _ => .ok "子代理已启动。完成后我会通知你。")

/-- Modelled from the spec: the end-user messaging capability (excluded from
subagent registries; not under src/).  Only its name matters here. -/
def messageTool : Tool := .mk "message" "send a message to the user" JSchema.empty (fun _ => .ok "")

/-- The capability registry built per subagent run in
`SubagentManager._run_subagent` (构建子代理工具：无消息工具，无生成工具):
read/write/list files, shell exec, web search/fetch, registered in source
order. -/
def subagentTools : ToolRegistry :=
  ((((((ToolRegistry.mk []).register readFileTool).register writeFileTool).register
    listDirTool).register execTool).register webSearchTool).register webFetchTool

/-- The two-message transcript seeded by `SubagentManager._run_subagent`. -/
def seedMessages (workspace task : String) : List ChatMessage :=
  [ChatMessage.system (SubagentManager.buildSubagentPrompt workspace task),
   ChatMessage.user task]

/-- `SubagentManager._run_subagent`: runs the bounded loop and returns the
list of inbound events published on the bus (exactly the `_announce_result`
calls, in order).  The `max_iterations = 15` ceiling and the canned
no-final-response fallback are from the source; a raised exception is caught
and announced as `错误：{e}` with status `error`. -/
def SubagentManager.runSubagent (chat : ChatFun) (workspace task label : String)
    (origin : Origin) : List InboundMessage :=
  match subagentLoop chat subagentTools (seedMessages workspace task) 0 15 with
  | .ok (finalResult, _) =>
    [SubagentManager.announceResult label task (finalResult.getD cannedNoFinal) origin "ok"]
  | .error e =>
    [SubagentManager.announceResult label task ("错误：" ++ e) origin "error"]

/-- The schedule kinds of `CronSchedule` in `cron/types.py`. -/
inductive CronKind where
  | at
  | every
  | cron
deriving DecidableEq

/-- `CronSchedule` from `cron/types.py`. -/
structure CronSchedule where
  kind : CronKind
  at_ms : Option Int := none
  every_ms : Option Int := none
  expr : Option String := none
  tz : Option String := none

/-- `CronPayload` from `cron/types.py` (the source field `to` is renamed
`sendTo`: `to` is a reserved token here). -/
structure CronPayload where
  kind : String := "agent_turn"
  message : String := ""
  deliver : Bool := false
  channel : Option String := none
  sendTo : Option String := none

/-- `CronJobState` from `cron/types.py`. -/
structure CronJobState where
  next_run_at_ms : Option Int := none
  last_run_at_ms : Option Int := none
  last_status : Option String := none
  last_error : Option String := none

/-- `CronJob` from `cron/types.py`. -/
structure CronJob where
  id : String
  name : String
  enabled : Bool := true
  schedule : CronSchedule := { kind := .every }
  payload : CronPayload := {}
  state : CronJobState := {}
  created_at_ms : Int := 0
  updated_at_ms : Int := 0
  delete_after_run : Bool := false

/-- Modelled from the spec: the Cron Service's next-fire computation
(`cron/service.py` is not under src/).  Per spec §4.4: for `at`, next-run is
the absolute timestamp; for `every`, next-run is now + interval; `cron`
expressions are outside this embedding. -/
def computeNextRun (schedule : CronSchedule) (now : Int) : Option Int :=
  match schedule.kind with
  | .at => schedule.at_ms
  | .every => schedule.every_ms.map (fun p => now + p)
  | .cron => none

/-- Modelled from the spec: re-arming of a job's state after a fire
(including a forced `run_job(force=True)`) at time `fireTime`
(`cron/service.py` is not under src/): `last_run_at` is set to the fire time
and `next_run_at` is recomputed by the next-fire computation at the fire
time. -/
def rearmAfterFire (job : CronJob) (fireTime : Int) : CronJob :=
  { job with state := { job.state with
      next_run_at_ms := computeNextRun job.schedule fireTime
      last_run_at_ms := some fireTime } }

/-- The checkbox placeholders skipped by `_is_heartbeat_empty` in
`heartbeat/service.py`. -/
def skipPatterns : List String := ["- [ ]", "* [ ]", "- [x]", "* [x]"]

/-- Python `str.strip()`: drop whitespace from both ends. -/
def pyStrip (s : String) : String :=
  String.mk (((s.data.dropWhile Char.isWhitespace).reverse.dropWhile
    Char.isWhitespace).reverse)

/-- Python `content.split("\n")` over the character list: always at least
one (possibly empty) line. -/
def splitLinesChars : List Char → List (List Char)
  | [] => [[]]
  | c :: rest =>
    match splitLinesChars rest with
    | line :: lines =>
      if c = '\n' then [] :: line :: lines else (c :: line) :: lines
    | [] => [[]]

/-- Python `content.split("\n")`. -/
def splitLines (s : String) : List String :=
  (splitLinesChars s.data).map String.mk

/-- Python `s.startswith(pre)`. -/
def pyStartsWith (s pre : String) : Bool :=
  pre.data.isPrefixOf s.data

/-- One line's skip condition in `_is_heartbeat_empty`: blank after
stripping, a `#` heading, an HTML comment opener, or a bare checkbox. -/
def lineSkippable (line : String) : Bool :=
  let l := pyStrip line
  l == "" || pyStartsWith l "#" || pyStartsWith l "<!--" || skipPatterns.contains l

/-- `_is_heartbeat_empty` from `heartbeat/service.py` over the file's
content (`none` embeds an absent or unreadable file, which
`_read_heartbeat_file` reports as `None`). -/
def isHeartbeatEmpty : Option String → Bool
  | none => true
  | some c => if c == "" then true else (splitLines c).all lineSkippable

/-- The gate of `HeartbeatService._tick`: whether the tick invokes the
registered `on_heartbeat` callback, given whether one is registered and the
task-file content.  An empty file is a no-op before the callback check. -/
def HeartbeatService.tickInvokesCallback (hasCallback : Bool)
    (content : Option String) : Bool :=
  if isHeartbeatEmpty content then false else hasCallback

/-- A raw completion-backend tool call as read by
`LiteLLMProvider._parse_response` (argument JSON decoding is kept
structural: arguments arrive as a parsed mapping). -/
structure RawToolCall where
  id : String
  name : String
  arguments : List (String × PyVal)

/-- The raw backend message (`choice.message`). -/
structure RawChoiceMessage where
  content : Option String := none
  tool_calls : List RawToolCall := []

/-- The raw backend choice (`response.choices[0]`); `finish_reason` may be
absent. -/
structure RawChoice where
  message : RawChoiceMessage
  finish_reason : Option String := none

/-- The raw backend response consumed by `_parse_response`; `usage` is the
optional `(prompt_tokens, completion_tokens, total_tokens)` triple. -/
structure RawResponse where
  choice : RawChoice
  usage : Option (Int × Int × Int) := none

/-- `LiteLLMProvider._parse_response`: maps the raw backend response into
the standard `LLMResponse`; `finish_reason or "stop"` treats both `None` and
the empty string as absent (Python falsiness). -/
def LiteLLMProvider.parseResponse (r : RawResponse) : LLMResponse :=
  { content := r.choice.message.content
    tool_calls := r.choice.message.tool_calls.map fun tc =>
      { id := tc.id, name := tc.name, arguments := tc.arguments }
    finish_reason :=
      match r.choice.finish_reason with
      | none => "stop"
      | some s => if s == "" then "stop" else s
    usage :=
      match r.usage with
      | some (p, c, t) =>
        [("prompt_tokens", p), ("completion_tokens", c), ("total_tokens", t)]
      | none => [] }

/-- The `try`/`except` body of `LiteLLMProvider.chat` over the outcome of
the `acompletion` backend call: a successful raw response is parsed; any
raised exception (message `e`) becomes a normal response whose content is
`调用 LLM 时出错：{e}` and whose `finish_reason` is `error`. -/
def LiteLLMProvider.chat (backendOutcome : Except String RawResponse) : LLMResponse :=
  match backendOutcome with
  | .ok r => LiteLLMProvider.parseResponse r
  | .error e =>
    { content := some ("调用 LLM 时出错：" ++ e)
      finish_reason := "error" }

/-- Python `key.split(":", 1)` over the character list: split at the first
colon, if any. -/
def splitFirstColon : List Char → Option (List Char × List Char)
  | [] => none
  | c :: rest =>
    if c = ':' then some ([], rest)
    else (splitFirstColon rest).map (fun p => (c :: p.1, p.2))

/-- `parse_session_key` from `utils/helpers.py`: split the key at the first
`:`; with no colon, return `(key, "")`. -/
def parse_session_key (key : String) : String × String :=
  match splitFirstColon key.data with
  | some (a, b) => (String.mk a, String.mk b)
  | none => (key, "")

/-- A concrete capability for witness runs: one required string argument
`x`, execution succeeds with `done`. -/
def demoTool : Tool :=
  .mk "echo" "echo demo"
    (.mk (some "object") none none none none none
      [("x", .mk (some "string") none none none none none [] [] none)] ["x"] none)
    (fun _ => .ok "done")

/-- A concrete capability whose execution raises (`kaput`). -/
def failTool : Tool := .mk "boom" "always raises" JSchema.empty (fun _ => .error "kaput")

/-- A concrete capability whose parameter schema is not `object`-typed, so
`validate_params` itself raises. -/
def badSchemaTool : Tool :=
  .mk "bad" "bad schema"
    (.mk (some "string") none none none none none [] [] none)
    (fun _ => .ok "unreachable")

/-- A concrete registry holding the three witness capabilities. -/
def demoRegistry : ToolRegistry :=
  (((ToolRegistry.mk []).register demoTool).register failTool).register badSchemaTool

/-- A concrete schema with several simultaneously violable constraints: an
object requiring `x` (a string of length ≥ 2), `n` (an integer ≥ 5) and `z`,
with an `items`-checked array `xs` of integers. -/
def demoSchema : JSchema :=
  .mk (some "object") none none none none none
    [("x", .mk (some "string") none none none (some 2) none [] [] none),
     ("n", .mk (some "integer") none (some 5) none none none [] [] none),
     ("xs", .mk (some "array") none none none none none [] []
        (some (.mk (some "integer") none none none none none [] [] none)))]
    ["x", "n", "z"] none

/-- A concrete argument mapping violating `demoSchema` in three places at
once: `z` missing, `x` too short, `n` below the minimum. -/
def demoVal : PyVal := .vObj [("x", .vStr "a"), ("n", .vInt 3)]

/-- A completion backend for witness runs that always requests a tool
call. -/
def constToolChat : ChatFun :=
  fun _ => .ok { content := none, tool_calls := [{ id := "1", name := "exec", arguments := [] }] }

/-- A completion backend for witness runs that always raises (`boom`). -/
def errChat : ChatFun := fun _ => .error "boom"

/-! ## Theorems -/

/-- Claim C6: the capability registry built for a subagent run registers
exactly the restricted set — file read/write/list, shell execution, web
search/fetch — and contains neither the spawn capability nor an end-user
messaging capability. -/
theorem subagent_registry_restricted :
    subagentTools.tool_names =
      ["read_file", "write_file", "list_dir", "exec", "web_search", "web_fetch"] ∧
    spawnTool.name ∉ subagentTools.tool_names ∧
    messageTool.name ∉ subagentTools.tool_names := by
  refine ⟨rfl, ?_, ?_⟩ <;> decide

/-- Claim C7: for a cron job of schedule kind `every` with period `P`
milliseconds, re-arming after a fire (forced runs included) at time `T`
recomputes the next-run time to exactly `T + P` — a function of the fire
time alone, independent of the original schedule start. -/
theorem cron_every_rearm_drift_free (job : CronJob) (P T : Int)
    (hk : job.schedule.kind = .every) (hp : job.schedule.every_ms = some P) :
    (rearmAfterFire job T).state.next_run_at_ms = some (T + P) := by
  simp [rearmAfterFire, computeNextRun, hk, hp]

/-- Witness for C7: a job with period 3600000 fired at time 50 is re-armed
to 3600050. -/
theorem cron_every_rearm_drift_free_witness :
    (rearmAfterFire
      { id := "j1", name := "daily-digest",
        schedule := { kind := .every, every_ms := some 3600000 } } 50).state.next_run_at_ms =
      some 3600050 :=
  cron_every_rearm_drift_free
    { id := "j1", name := "daily-digest",
      schedule := { kind := .every, every_ms := some 3600000 } } 3600000 50 rfl rfl

/-- Claim C9: when the completion backend raises, the provider's chat
operation returns a normal response (it never raises — it is total) whose
content is the error string and whose finish_reason is `error`, with no tool
calls. -/
theorem provider_chat_backend_error (e : String) :
    (LiteLLMProvider.chat (.error e)).finish_reason = "error" ∧
    (LiteLLMProvider.chat (.error e)).content = some ("调用 LLM 时出错：" ++ e) ∧
    (LiteLLMProvider.chat (.error e)).tool_calls = [] :=
  ⟨rfl, rfl, rfl⟩

/-- Splitting at the first colon of `xs ++ ':' :: ys` recovers `(xs, ys)`
when `xs` is colon-free. -/
theorem splitFirstColon_append (xs ys : List Char) (h : ∀ c ∈ xs, c ≠ ':') :
    splitFirstColon (xs ++ ':' :: ys) = some (xs, ys) := by
  induction xs with
  | nil => simp [splitFirstColon]
  | cons c rest ih =>
    have hc : c ≠ ':' := h c (List.mem_cons_self c rest)
    simp only [List.cons_append, splitFirstColon, if_neg hc, List.append_eq]
    rw [ih (fun d hd => h d (List.mem_cons_of_mem c hd))]
    rfl

/-- Claim C10: for an inbound message whose channel contains no colon,
parsing the derived session key round-trips to exactly the channel and chat
id — even when the chat id itself contains colons — because parsing splits
only at the first colon. -/
theorem parse_session_key_roundtrip (m : InboundMessage)
    (h : ∀ c ∈ m.channel.data, c ≠ ':') :
    parse_session_key m.session_key = (m.channel, m.chat_id) := by
  have hdata : m.session_key.data = m.channel.data ++ ':' :: m.chat_id.data := by
    show (m.channel ++ ":" ++ m.chat_id).data = _
    rw [String.data_append, String.data_append]
    simp
  rw [parse_session_key, hdata, splitFirstColon_append m.channel.data m.chat_id.data h]

/-- Witness for C10: the session key of a `telegram` message whose chat id
itself contains colons parses back to the original pair. -/
theorem parse_session_key_roundtrip_witness :
    parse_session_key (InboundMessage.session_key
      { channel := "telegram", sender_id := "u1", chat_id := "a:b:c", content := "hi" }) =
      ("telegram", "a:b:c") :=
  parse_session_key_roundtrip
    { channel := "telegram", sender_id := "u1", chat_id := "a:b:c", content := "hi" }
    (by decide)

/-- Claim C8: a heartbeat tick (with a registered callback) is a no-op
exactly when the task file is absent/unreadable (`none`) or every line,
after trimming, is blank, a `#` heading, an HTML comment opener, or a bare
checkbox placeholder; any other content triggers the callback.  (An empty
file is the all-lines-blank case of the single line `""`.) -/
theorem heartbeat_tick_gate (content : Option String) :
    HeartbeatService.tickInvokesCallback true content = false ↔
      (content = none ∨
        ∀ l ∈ splitLines (content.getD ""),
          pyStrip l = "" ∨ pyStartsWith (pyStrip l) "#" = true ∨
          pyStartsWith (pyStrip l) "<!--" = true ∨
          pyStrip l ∈ ["- [ ]", "* [ ]", "- [x]", "* [x]"]) := by
  have hgate : HeartbeatService.tickInvokesCallback true content = false ↔
      isHeartbeatEmpty content = true := by
    unfold HeartbeatService.tickInvokesCallback
    cases h : isHeartbeatEmpty content <;> simp [h]
  rw [hgate]
  cases content with
  | none => simp [isHeartbeatEmpty]
  | some c =>
    simp only [isHeartbeatEmpty, Option.getD, Option.some.injEq, reduceCtorEq, false_or]
    by_cases hc : c = ""
    · subst hc
      simp only [if_pos (by rfl : ("" == "") = true), true_iff]
      intro l hl
      have hsplit : splitLines "" = [""] := rfl
      rw [hsplit] at hl
      simp only [List.mem_singleton] at hl
      subst hl
      left
      rfl
    · rw [if_neg (by simpa using hc)]
      rw [List.all_eq_true]
      constructor
      · intro h l hl
        have hskip := h l hl
        simpa [lineSkippable, skipPatterns, Bool.or_eq_true, or_assoc] using hskip
      · intro h l hl
        have hskip := h l hl
        simpa [lineSkippable, skipPatterns, Bool.or_eq_true, or_assoc] using hskip

/-- Witness for C8: a file holding only a heading and an unchecked checkbox
is a no-op; adding the line `buy milk` makes the tick invoke the callback. -/
theorem heartbeat_tick_gate_witness :
    HeartbeatService.tickInvokesCallback true (some "# Heading\n\n- [ ]") = false ∧
    HeartbeatService.tickInvokesCallback true (some "# Heading\n\nbuy milk") = true := by
  constructor
  · exact (heartbeat_tick_gate (some "# Heading\n\n- [ ]")).mpr (Or.inr (by decide))
  · have h := heartbeat_tick_gate (some "# Heading\n\nbuy milk")
    cases hb : HeartbeatService.tickInvokesCallback true (some "# Heading\n\nbuy milk") with
    | false =>
      exfalso
      rcases h.mp hb with h1 | h2
      · exact Option.noConfusion h1
      · exact absurd (h2 "buy milk" (by decide)) (by decide)
    | true => rfl

/-- Claim C1: for a registered capability, `execute` invokes the underlying
capability exactly when validation reports no violations — a violating
mapping yields a text prefixed `错误：` with the capability never invoked
(count 0); a valid mapping invokes it exactly once (count 1) and a
successful result is returned unmodified.  (When `validate_params` itself
raises, the capability is likewise never invoked.) -/
theorem registry_execute_validation_gate (r : ToolRegistry) (name : String)
    (tool : Tool) (params : List (String × PyVal)) (hget : r.get name = some tool) :
    (∀ errs, tool.validate_params params = .ok errs → errs ≠ [] →
      (r.execute name params).2 = 0 ∧
      ∃ rest, (r.execute name params).1 = "错误：" ++ rest) ∧
    (tool.validate_params params = .ok [] →
      (r.execute name params).2 = 1 ∧
      ∀ res, tool.execute params = .ok res → (r.execute name params).1 = res) ∧
    (∀ e, tool.validate_params params = .error e → (r.execute name params).2 = 0) := by
  refine ⟨?_, ?_, ?_⟩
  · intro errs hval hne
    have hee : errs.isEmpty = false := by
      cases errs with
      | nil => exact absurd rfl hne
      | cons a l => rfl
    refine ⟨?_, "工具 \x27" ++ name ++ "\x27 的参数无效：" ++ String.intercalate "；" errs, ?_⟩
    · simp [ToolRegistry.execute, hget, hval, hee]
    · simp only [ToolRegistry.execute, hget, hval, hee, Bool.false_eq_true, if_false]
      rw [← String.append_assoc, ← String.append_assoc, ← String.append_assoc]
      rfl
  · intro hval
    constructor
    · cases hex : tool.execute params <;> simp [ToolRegistry.execute, hget, hval, hex]
    · intro res hex
      simp [ToolRegistry.execute, hget, hval, hex]
  · intro e hval
    simp [ToolRegistry.execute, hget, hval]

/-- Witness for C1: in the demo registry, executing `echo` with the valid
mapping `x := "hi"` invokes the capability once and returns `done`
unmodified; executing it with an empty mapping (missing the required `x`)
never invokes it and returns an error-prefixed text. -/
theorem registry_execute_validation_gate_witness :
    ((demoRegistry.execute "echo" [("x", .vStr "hi")]).1 = "done" ∧
      (demoRegistry.execute "echo" [("x", .vStr "hi")]).2 = 1) ∧
    ((demoRegistry.execute "echo" []).2 = 0 ∧
      ∃ rest, (demoRegistry.execute "echo" []).1 = "错误：" ++ rest) := by
  have hvalid :=
    (registry_execute_validation_gate demoRegistry "echo" demoTool [("x", .vStr "hi")] rfl).2.1
    rfl
  have hinvalid :=
    (registry_execute_validation_gate demoRegistry "echo" demoTool [] rfl).1
    ["缺少必需的 x"] rfl (by decide)
  exact ⟨⟨hvalid.2 "done" rfl, hvalid.1⟩, hinvalid⟩

/-- Claim C2: `execute` is total (it returns a string on every input, never
raising): an unknown name yields a textual error naming the missing
capability, an exception from `validate_params` or from the capability's
execute is converted to a textual error carrying the capability name and the
underlying message. -/
theorem registry_execute_never_raises (r : ToolRegistry) (name : String)
    (params : List (String × PyVal)) :
    (r.get name = none →
      (r.execute name params).1 = "错误：未找到工具 \x27" ++ name ++ "\x27") ∧
    (∀ tool e, r.get name = some tool → tool.validate_params params = .error e →
      (r.execute name params).1 = "执行 " ++ name ++ " 时出错：" ++ e) ∧
    (∀ tool e, r.get name = some tool → tool.validate_params params = .ok [] →
      tool.execute params = .error e →
      (r.execute name params).1 = "执行 " ++ name ++ " 时出错：" ++ e) := by
  refine ⟨?_, ?_, ?_⟩
  · intro hget
    simp [ToolRegistry.execute, hget]
  · intro tool e hget hval
    simp [ToolRegistry.execute, hget, hval]
  · intro tool e hget hval hex
    simp [ToolRegistry.execute, hget, hval, hex]

/-- Witness for C2: an unknown capability, a capability whose schema check
raises, and a capability whose execution raises each produce the exact
textual errors. -/
theorem registry_execute_never_raises_witness :
    (demoRegistry.execute "nope" []).1 = "错误：未找到工具 \x27nope\x27" ∧
    (demoRegistry.execute "bad" []).1 =
      "执行 bad 时出错：Schema 必须是 object 类型，当前为 \x27string\x27" ∧
    (demoRegistry.execute "boom" []).1 = "执行 boom 时出错：kaput" := by
  refine ⟨?_, ?_, ?_⟩
  · exact (registry_execute_never_raises demoRegistry "nope" []).1 rfl
  · exact (registry_execute_never_raises demoRegistry "bad" []).2.1 badSchemaTool
      "Schema 必须是 object 类型，当前为 \x27string\x27" rfl rfl
  · exact (registry_execute_never_raises demoRegistry "boom" []).2.2 failTool "kaput" rfl
      rfl rfl

/-- The recursive errors of any present property appear contiguously in the
property-loop errors. -/
theorem validateProps_contains (kvs : List (String × PyVal))
    (props : List (String × JSchema)) (path k : String) (v : PyVal) (sub : JSchema)
    (hmem : (k, v) ∈ kvs) (hlook : lookupJS k props = some sub) :
    (validateVal v sub (childKey path k)).Sublist (validateProps kvs props path) := by
  induction kvs with
  | nil => cases hmem
  | cons hd rest ih =>
    cases hmem with
    | head =>
      simp only [validateProps, hlook]
      exact List.sublist_append_left _ _
    | tail _ hmem2 =>
      refine (ih hmem2).trans ?_
      obtain ⟨k2, v2⟩ := hd
      simp only [validateProps]
      exact List.sublist_append_right _ _

/-- The recursive errors of any array element appear contiguously in the
item-loop errors. -/
theorem validateItems_contains (isch : JSchema) (path : String) :
    ∀ (xs : List PyVal) (i j : Nat) (x : PyVal), xs.get? i = some x →
    (validateVal x isch (itemPath path (j + i))).Sublist (validateItems xs isch path j) := by
  intro xs
  induction xs with
  | nil => intro i j x h; cases h
  | cons y rest ih =>
    intro i j x h
    cases i with
    | zero =>
      simp only [List.get?] at h
      cases h
      simp only [validateItems, Nat.add_zero]
      exact List.sublist_append_left _ _
    | succ i2 =>
      simp only [List.get?] at h
      have hsub := ih i2 (j + 1) x h
      rw [show j + 1 + i2 = j + (i2 + 1) by omega] at hsub
      refine hsub.trans ?_
      simp only [validateItems]
      exact List.sublist_append_right _ _

/-- Claim C3: validation enumerates every violation it finds rather than
stopping at the first, recursing through nested object and array schemas: a
failed type check reports the type error; otherwise a failed enum
membership, a violated numeric minimum/maximum, a violated string length
bound and each missing required field all appear in the returned error list,
the full recursive error list of every schema-described property of a nested
object appears within it, and so does the full recursive error list of every
element of an `items`-checked array. -/
theorem validate_enumerates_all_violations (schema : JSchema) (val : PyVal)
    (path : String) :
    (typeMismatch val schema = true →
      validateVal val schema path = [typeMsg (pathLabel path) (schema.type?.getD "")]) ∧
    (typeMismatch val schema = false →
      (∀ es, schema.enum? = some es → es.any (fun e => pyEq val e) = false →
        enumMsg (pathLabel path) es ∈ validateVal val schema path) ∧
      (∀ m, (schema.type? = some "integer" ∨ schema.type? = some "number") →
        schema.minimum? = some m → pyNum val < (m : Rat) →
        minMsg (pathLabel path) m ∈ validateVal val schema path) ∧
      (∀ m, (schema.type? = some "integer" ∨ schema.type? = some "number") →
        schema.maximum? = some m → (m : Rat) < pyNum val →
        maxMsg (pathLabel path) m ∈ validateVal val schema path) ∧
      (∀ n, schema.type? = some "string" → schema.minLength? = some n →
        pyStrLen val < n → minLenMsg (pathLabel path) n ∈ validateVal val schema path) ∧
      (∀ n, schema.type? = some "string" → schema.maxLength? = some n →
        n < pyStrLen val → maxLenMsg (pathLabel path) n ∈ validateVal val schema path) ∧
      (∀ k, schema.type? = some "object" → k ∈ schema.required →
        lookupVal k (objItems val) = none →
        requiredMsg path k ∈ validateVal val schema path) ∧
      (∀ kvs k v sub, schema.type? = some "object" → val = .vObj kvs →
        (k, v) ∈ kvs → lookupJS k schema.properties = some sub →
        (validateVal v sub (childKey path k)).Sublist (validateVal val schema path)) ∧
      (∀ xs isch i x, schema.type? = some "array" → val = .vArr xs →
        schema.items? = some isch → xs.get? i = some x →
        (validateVal x isch (itemPath path i)).Sublist (validateVal val schema path))) := by
  constructor
  · intro h
    rw [validateVal.eq_def, if_pos h]
  · intro h
    refine ⟨?_, ?_, ?_, ?_, ?_, ?_, ?_, ?_⟩
    · intro es hes hany
      rw [validateVal.eq_def, if_neg (by simp [h])]
      have hmemE : enumMsg (pathLabel path) es ∈ enumErrs val schema (pathLabel path) := by
        simp [enumErrs, hes, hany]
      exact List.mem_append_left _ (List.mem_append_left _ (List.mem_append_left _
        (List.mem_append_left _ hmemE)))
    · intro m ht hmin hlt
      rw [validateVal.eq_def, if_neg (by simp [h])]
      have hmemN : minMsg (pathLabel path) m ∈ numErrs val schema (pathLabel path) := by
        rcases ht with ht | ht <;> simp [numErrs, ht, hmin, hlt]
      exact List.mem_append_left _ (List.mem_append_left _ (List.mem_append_left _
        (List.mem_append_right _ hmemN)))
    · intro m ht hmax hlt
      rw [validateVal.eq_def, if_neg (by simp [h])]
      have hmemN : maxMsg (pathLabel path) m ∈ numErrs val schema (pathLabel path) := by
        rcases ht with ht | ht <;> simp [numErrs, ht, hmax, hlt]
      exact List.mem_append_left _ (List.mem_append_left _ (List.mem_append_left _
        (List.mem_append_right _ hmemN)))
    · intro n ht hmin hlt
      rw [validateVal.eq_def, if_neg (by simp [h])]
      have hmemS : minLenMsg (pathLabel path) n ∈ strErrs val schema (pathLabel path) := by
        simp [strErrs, ht, hmin, hlt]
      exact List.mem_append_left _ (List.mem_append_left _ (List.mem_append_right _ hmemS))
    · intro n ht hmax hlt
      rw [validateVal.eq_def, if_neg (by simp [h])]
      have hmemS : maxLenMsg (pathLabel path) n ∈ strErrs val schema (pathLabel path) := by
        simp [strErrs, ht, hmax, hlt]
      exact List.mem_append_left _ (List.mem_append_left _ (List.mem_append_right _ hmemS))
    · intro k ht hreq hlook
      rw [validateVal.eq_def, if_neg (by simp [h]), if_pos (by simp [ht] : (schema.type? == some "object") = true)]
      have hmemR : requiredMsg path k ∈ requiredErrs val schema path := by
        rw [requiredErrs, List.mem_filterMap]
        exact ⟨k, hreq, by simp [hlook]⟩
      exact List.mem_append_left _ (List.mem_append_right _ (List.mem_append_left _ hmemR))
    · intro kvs k v sub ht hval hmem hlook
      subst hval
      nth_rewrite 2 [validateVal.eq_def]
      rw [if_neg (by simp [h]), if_pos (by simp [ht] : (schema.type? == some "object") = true)]
      dsimp only
      have hsub := validateProps_contains kvs schema.properties path k v sub hmem hlook
      exact (((hsub.trans (List.sublist_append_right _ _)).trans
        (List.sublist_append_right _ _)).trans (List.sublist_append_left _ _))
    · intro xs isch i x ht hval hitems hget
      subst hval
      nth_rewrite 2 [validateVal.eq_def]
      rw [if_neg (by simp [h]),
        if_pos (by simp [ht] : (schema.type? == some "array") = true), hitems]
      dsimp only
      have hsub := validateItems_contains isch path xs i 0 x hget
      rw [Nat.zero_add] at hsub
      exact hsub.trans (List.sublist_append_right _ _)

/-- Witness for C3: `demoVal` violates `demoSchema` in three places at once
(missing required `z`, `x` too short, `n` below its minimum) and validation
enumerates all three; the missing-required message is among them by the
enumeration theorem. -/
theorem validate_enumerates_all_violations_witness :
    validateVal demoVal demoSchema "" =
      ["缺少必需的 z", "x 至少 2 个字符", "n 必须 >= 5"] ∧
    requiredMsg "" "z" ∈ validateVal demoVal demoSchema "" := by
  constructor
  · decide
  · exact ((validate_enumerates_all_violations demoSchema demoVal "").2
      (by decide)).2.2.2.2.2.1 "z" rfl (by decide) rfl

/-- When every backend call returns a response carrying tool calls, the
subagent loop runs the iteration counter up to the ceiling and ends with no
final result. -/
theorem subagentLoop_all_tool_calls (chat : ChatFun) (tools : ToolRegistry)
    (hchat : ∀ msgs, ∃ r, chat msgs = .ok r ∧ r.tool_calls ≠ []) :
    ∀ (k : Nat) (msgs : List ChatMessage) (iteration maxIterations : Nat),
      maxIterations - iteration = k → iteration ≤ maxIterations →
      subagentLoop chat tools msgs iteration maxIterations = .ok (none, maxIterations) := by
  intro k
  induction k with
  | zero =>
    intro msgs iteration maxIterations hk hle
    have heq : iteration = maxIterations := by omega
    subst heq
    rw [subagentLoop.eq_def, if_neg (by omega)]
  | succ k2 ih =>
    intro msgs iteration maxIterations hk hle
    have hlt : iteration < maxIterations := by omega
    obtain ⟨r, hr, htc⟩ := hchat msgs
    have htc2 : r.has_tool_calls = true := by
      unfold LLMResponse.has_tool_calls
      cases hcase : r.tool_calls with
      | nil => exact absurd hcase htc
      | cons a l => rfl
    rw [subagentLoop.eq_def, if_pos hlt, hr]
    dsimp only
    rw [if_pos htc2]
    exact ih _ _ _ (by omega) (by omega)

/-- Claim C4: when every completion-backend response carries tool-call
requests, the subagent loop performs exactly its 15-iteration ceiling and
the run finishes with the canned completed-without-a-final-response message,
announced with the success status. -/
theorem subagent_ceiling_canned_success (chat : ChatFun) (workspace task label : String)
    (origin : Origin)
    (hchat : ∀ msgs, ∃ r, chat msgs = .ok r ∧ r.tool_calls ≠ []) :
    subagentLoop chat subagentTools (seedMessages workspace task) 0 15 = .ok (none, 15) ∧
    SubagentManager.runSubagent chat workspace task label origin =
      [SubagentManager.announceResult label task cannedNoFinal origin "ok"] := by
  have hloop := subagentLoop_all_tool_calls chat subagentTools hchat 15
    (seedMessages workspace task) 0 15 rfl (by omega)
  refine ⟨hloop, ?_⟩
  unfold SubagentManager.runSubagent
  rw [hloop]
  rfl

/-- Witness for C4: a backend that always requests an `exec` tool call makes
the run announce the canned message as a success. -/
theorem subagent_ceiling_canned_success_witness :
    SubagentManager.runSubagent constToolChat "ws" "do the task" "lbl" ⟨"cli", "direct"⟩ =
      [SubagentManager.announceResult "lbl" "do the task" cannedNoFinal ⟨"cli", "direct"⟩ "ok"] :=
  (subagent_ceiling_canned_success constToolChat "ws" "do the task" "lbl" ⟨"cli", "direct"⟩
    (fun _ => ⟨_, rfl, List.cons_ne_nil _ _⟩)).2

/-- Claim C5: every subagent run publishes exactly one synthetic inbound
event, on channel `system` from sender `subagent`, addressed to the chat id
`origin_channel:origin_chat_id` (so its session key is
`system:origin_channel:origin_chat_id`); and when the loop raises, the
exception's message becomes the failure result announced with the failure
status. -/
theorem subagent_always_announces (chat : ChatFun) (workspace task label : String)
    (origin : Origin) :
    (SubagentManager.runSubagent chat workspace task label origin).length = 1 ∧
    (∀ m ∈ SubagentManager.runSubagent chat workspace task label origin,
      m.channel = "system" ∧ m.sender_id = "subagent" ∧
      m.chat_id = origin.channel ++ ":" ++ origin.chat_id ∧
      m.session_key = "system:" ++ (origin.channel ++ ":" ++ origin.chat_id)) ∧
    (∀ e, subagentLoop chat subagentTools (seedMessages workspace task) 0 15 = .error e →
      SubagentManager.runSubagent chat workspace task label origin =
        [SubagentManager.announceResult label task ("错误：" ++ e) origin "error"]) := by
  have hcases : ∃ res st, SubagentManager.runSubagent chat workspace task label origin =
      [SubagentManager.announceResult label task res origin st] := by
    unfold SubagentManager.runSubagent
    cases subagentLoop chat subagentTools (seedMessages workspace task) 0 15 with
    | ok p =>
      obtain ⟨fr, n⟩ := p
      exact ⟨fr.getD cannedNoFinal, "ok", rfl⟩
    | error e => exact ⟨"错误：" ++ e, "error", rfl⟩
  obtain ⟨res, st, heq⟩ := hcases
  refine ⟨by rw [heq]; rfl, ?_, ?_⟩
  · intro m hm
    rw [heq] at hm
    simp only [List.mem_singleton] at hm
    subst hm
    exact ⟨rfl, rfl, rfl, rfl⟩
  · intro e hloop
    unfold SubagentManager.runSubagent
    rw [hloop]

/-- Witness for C5: a backend that raises `boom` on the first call makes the
run announce `错误：boom` with the failure status. -/
theorem subagent_always_announces_witness :
    SubagentManager.runSubagent errChat "ws" "do the task" "lbl" ⟨"cli", "direct"⟩ =
      [SubagentManager.announceResult "lbl" "do the task" ("错误：" ++ "boom")
        ⟨"cli", "direct"⟩ "error"] := by
  refine (subagent_always_announces errChat "ws" "do the task" "lbl" ⟨"cli", "direct"⟩).2.2
    "boom" ?_
  rw [subagentLoop.eq_def, if_pos (by omega)]
  rfl

end Nanobot
